import Mathlib

/-!
Verification of the notion-sync repository (two Python scripts,
`crypto_etf_sync.py` and `crypto_sync.py`) against its natural-language
specification.  The scripts fetch prices from two upstream HTTP feeds
(CoinGecko batch prices, Yahoo Finance per-ticker charts) and write them
into rows of Notion databases.

The embedding is shallow: every HTTP interaction is modelled by passing
the upstream's responses in as explicit data (an oracle), and each
operation returns, besides its result, a trace of the requests it issued
and the delays it slept, so that bounded-retry and no-write claims can be
stated as facts about the trace.
-/

namespace NotionSync

/-- A parsed HTTP response: numeric status code plus the decoded JSON body.
`requests.Response.raise_for_status` raises exactly when the status is
`>= 400`. -/
structure HttpResponse (α : Type) where
  status : Nat
  body : α
deriving DecidableEq, Repr

/-- The JSON body of the CoinGecko `simple/price` endpoint: a mapping from
coin id to a mapping from quote-currency code to numeric price, modelled
as nested association lists (Python `dict`s in insertion order). -/
abbrev PriceMap := List (String × List (String × Rat))

/-- Outcome of the bounded-retry fetch loop in `coingecko_get_prices`. -/
inductive FetchResult (α : Type) where
  /-- A response with a non-429 success status arrived: its body is returned. -/
  | success : α → FetchResult α
  /-- `r.raise_for_status()` raised on a non-429 status `>= 400`. -/
  | httpError : Nat → FetchResult α
  /-- All attempts were rate limited: `RuntimeError("... rate limited too many times (429) ...")`. -/
  | exhausted : FetchResult α
  /-- Modelling artefact: the response oracle ran out of responses. -/
  | noResponse : FetchResult α
deriving DecidableEq, Repr

/-- The GET request built by `coingecko_get_prices`: its `params` are the
comma-joined coin-id list and the quote currency.  Each loop iteration
issues this same request. -/
structure CoinGeckoRequest where
  ids : String
  vs : String
deriving DecidableEq, Repr

/-- `params = {"ids": ",".join(coin_ids), "vs_currencies": vs}`. -/
def coingecko_request (coin_ids : List String) (vs : String) : CoinGeckoRequest :=
  ⟨String.intercalate "," coin_ids, vs⟩

/-- Trace of one call to `coingecko_get_prices`: the final outcome, the
requests issued (in order), and the sleep durations (in seconds, in
order). -/
structure FetchTrace (α : Type) where
  res : FetchResult α
  requests : List CoinGeckoRequest
  sleeps : List Nat
deriving DecidableEq, Repr

/-- The body of `for attempt in range(6): ...` in `coingecko_get_prices`
(identical in both scripts).  `attempts` is the list of remaining loop
indices; `responses` is the upstream oracle, consumed one response per
issued request.  On a 429 the code sleeps `2 * (attempt + 1)` seconds and
retries; any other status `>= 400` raises immediately; otherwise the JSON
body is returned.  Falling off the loop raises the rate-limit-exhausted
error. -/
def coingecko_loop {α : Type} (req : CoinGeckoRequest)
    (responses : List (HttpResponse α)) (attempts : List Nat) : FetchTrace α :=
  match attempts with
  | [] => ⟨.exhausted, [], []⟩
  | attempt :: restAttempts =>
    match responses with
    | [] => ⟨.noResponse, [req], []⟩
    | r :: rs =>
      if r.status = 429 then
        let t := coingecko_loop req rs restAttempts
        ⟨t.res, req :: t.requests, 2 * (attempt + 1) :: t.sleeps⟩
      else if 400 ≤ r.status then ⟨.httpError r.status, [req], []⟩
      else ⟨.success r.body, [req], []⟩

/-- `coingecko_get_prices(coin_ids, vs)`: builds the request once and runs
the retry loop with `range(6)`. -/
def coingecko_get_prices {α : Type} (coin_ids : List String) (vs : String)
    (responses : List (HttpResponse α)) : FetchTrace α :=
  coingecko_loop (coingecko_request coin_ids vs) responses (List.range 6)

/-! ### Yahoo Finance chart endpoint (`crypto_etf_sync.py` only) -/

/-- The `meta` object of the first chart result.  The two fields the code
reads; a field absent from the JSON is `none`. -/
structure ChartMeta where
  regularMarketPrice : Option Rat
  previousClose : Option Rat
deriving DecidableEq, Repr

/-- One element of the chart `result` array; `result[0].get("meta", {})`
defaults a missing `meta` to the empty object. -/
structure ChartItem where
  meta : Option ChartMeta
deriving DecidableEq, Repr

/-- The `chart` object of the response body: `result` is a JSON array or
null, `error` is null or an error object (modelled by its description). -/
structure ChartData where
  result : Option (List ChartItem)
  error : Option String
deriving DecidableEq, Repr

/-- Python `a or b` on two optional numbers: the left operand is chosen
only when it is truthy, i.e. present and nonzero; `None` and `0.0` both
fall through to the right operand. -/
def pyTruthyOr (a b : Option Rat) : Option Rat :=
  match a with
  | none => b
  | some x => if x = 0 then b else some x

/-- `yahoo_last_price(ticker)`: a single GET with no retry.
`raise_for_status` raises on status `>= 400` (modelled as `.error`);
`if err or not result: return None`; otherwise the price is
`meta.get("regularMarketPrice") or meta.get("previousClose")`, converted
to float when non-None. -/
def yahoo_last_price (resp : HttpResponse ChartData) : Except Nat (Option Rat) :=
  if 400 ≤ resp.status then .error resp.status
  else
    match resp.body.error, resp.body.result with
    | some _, _ => .ok none
    | none, none => .ok none
    | none, some [] => .ok none
    | none, some (item :: _) =>
      let meta := item.meta.getD ⟨none, none⟩
      .ok (pyTruthyOr meta.regularMarketPrice meta.previousClose)

/-! ### Notion API model -/

/-- One row returned by a database query; only its opaque `id` is read. -/
structure NotionPage where
  id : String
deriving DecidableEq, Repr

/-- The distinct failure kinds raised by the scripts (each a
`RuntimeError`, `requests.HTTPError`, `KeyError` or `NameError` in the
source; carried data mirrors what the message interpolates). -/
inductive SyncError where
  /-- crypto_etf_sync locator: names the database id and the title. -/
  | pageNotFound (database_id : String) (title : String)
  /-- crypto_sync locator: its message names only the title. -/
  | titleNotFound (title : String)
  /-- crypto_etf_sync updater: the schema lacks a required column. -/
  | schemaMissingColumn (column : String)
  /-- sync_crypto caller: the batch response lacks a coin/currency pair. -/
  | missingPrice (cg_id : String) (vs : String)
  /-- sync_etfs caller: no price available for a ticker. -/
  | noPriceForTicker (ticker : String)
  /-- `raise_for_status()` on a non-retryable status. -/
  | httpStatus (status : Nat)
  /-- CoinGecko retry loop fell through all 6 attempts. -/
  | rateLimitExhausted
  /-- Python `NameError`: an undefined global name was referenced. -/
  | nameError (name : String)
  /-- Python `KeyError` from a `dict` subscript. -/
  | keyError (key : String)
  /-- Modelling artefact: a response oracle ran out. -/
  | noResponse
deriving DecidableEq, Repr

/-- Column names configured in `crypto_etf_sync.py` (the same literals are
inlined in `crypto_sync.py`). -/
def TITLE_PROP : String := "Name"

/-- The required numeric price column. -/
def PRICE_PROP : String := "Current Price"

/-- The optional date column for the update instant. -/
def LAST_UPDATED_PROP : String := "Last Updated"

/-- The configured quote currency. -/
def VS_CURRENCY : String := "aud"

/-- A Notion property value as written by the scripts: a number payload or
a date payload. -/
inductive PropValue where
  | number : Rat → PropValue
  | date : String → PropValue
deriving DecidableEq, Repr

/-- The PATCH request issued against `/v1/pages/{page_id}`: the page id
and the `properties` object (an association list in insertion order). -/
structure PatchRequest where
  page_id : String
  properties : List (String × PropValue)
deriving DecidableEq, Repr

/-- A UTC wall-clock instant as produced by `datetime.now(timezone.utc)`. -/
structure UTCTime where
  year : Nat
  month : Nat
  day : Nat
  hour : Nat
  minute : Nat
  second : Nat
  microsecond : Nat
deriving DecidableEq, Repr

/-- Left-pad a decimal numeral with zeros to the given width. -/
def padNum (width : Nat) (n : Nat) : String :=
  let s := toString n
  String.mk (List.replicate (width - s.length) '0') ++ s

/-- The date-time part of `datetime.isoformat()`: the fractional second is
omitted when the microsecond field is zero. -/
def isoCore (t : UTCTime) : String :=
  padNum 4 t.year ++ "-" ++ padNum 2 t.month ++ "-" ++ padNum 2 t.day ++ "T" ++
  padNum 2 t.hour ++ ":" ++ padNum 2 t.minute ++ ":" ++ padNum 2 t.second ++
  (if t.microsecond = 0 then "" else "." ++ padNum 6 t.microsecond)

/-- `datetime.now(timezone.utc).isoformat()`: a timezone-aware ISO-8601
string whose UTC offset suffix is `+00:00`. -/
def isoformatUTC (t : UTCTime) : String := isoCore t ++ "+00:00"

/-- Decidable equality for `Except`, so that traces containing outcomes
can be compared by `decide` on concrete inputs. -/
instance {ε α : Type} [DecidableEq ε] [DecidableEq α] : DecidableEq (Except ε α) :=
  fun x y =>
    match x, y with
    | .ok a, .ok b =>
      if h : a = b then .isTrue (by rw [h])
      else .isFalse (by intro hc; cases hc; exact h rfl)
    | .error a, .error b =>
      if h : a = b then .isTrue (by rw [h])
      else .isFalse (by intro hc; cases hc; exact h rfl)
    | .ok _, .error _ => .isFalse (by intro hc; cases hc)
    | .error _, .ok _ => .isFalse (by intro hc; cases hc)

/-- Trace of one call to a record updater: the PATCH requests it actually
issued (empty when it failed before writing) and its outcome. -/
structure UpdateOutcome where
  requestsIssued : List PatchRequest
  res : Except SyncError Unit
deriving DecidableEq, Repr

/-! ### crypto_etf_sync.py -/

namespace CryptoEtfSync

/-- The crypto instrument table: Notion title -> CoinGecko coin id, in
declaration order. -/
def CRYPTO : List (String × String) :=
  [("Bitcoin", "bitcoin"), ("WLFI", "world-liberty-financial")]

/-- The ETF instrument table: Notion title -> Yahoo ticker. -/
def ETFS : List (String × String) :=
  [("IVV", "IVV.AX"), ("AGS", "AGS.AX")]

/-- `notion_get_database_properties(database_id)`: a GET whose JSON body
is projected to its `properties` keys (we model the schema by the list of
its property names). -/
def notion_get_database_properties (resp : HttpResponse (List String)) :
    Except SyncError (List String) :=
  if 400 ≤ resp.status then .error (.httpStatus resp.status)
  else .ok resp.body

/-- `notion_find_page_id_by_title(database_id, title_value)`: POSTs a
title-equality query; zero results raise a `RuntimeError` interpolating
the database id and the title; otherwise `results[0]["id"]` is returned. -/
def notion_find_page_id_by_title (database_id : String) (title_value : String)
    (resp : HttpResponse (List NotionPage)) : Except SyncError String :=
  if 400 ≤ resp.status then .error (.httpStatus resp.status)
  else
    match resp.body with
    | [] => .error (.pageNotFound database_id title_value)
    | p :: _ => .ok p.id

/-- `notion_update_price(database_props, page_id, price)`: first checks
`PRICE_PROP in database_props` and raises without any HTTP call when the
column is missing; otherwise builds the properties payload (price number,
then the date column when the schema has it), issues the PATCH, and
raises on a response status `>= 400`.  `now` stands for the
`datetime.now(timezone.utc)` instant read during the call; `writeStatus`
is the store's response status to the PATCH. -/
def notion_update_price (database_props : List String) (page_id : String)
    (price : Rat) (now : UTCTime) (writeStatus : Nat) : UpdateOutcome :=
  if PRICE_PROP ∉ database_props then
    ⟨[], .error (.schemaMissingColumn PRICE_PROP)⟩
  else
    let props_payload :=
      [(PRICE_PROP, PropValue.number price)] ++
        (if LAST_UPDATED_PROP ∈ database_props then
          [(LAST_UPDATED_PROP, PropValue.date (isoformatUTC now))]
        else [])
    let req : PatchRequest := ⟨page_id, props_payload⟩
    if 400 ≤ writeStatus then ⟨[req], .error (.httpStatus writeStatus)⟩
    else ⟨[req], .ok ()⟩

/-- Nested dictionary access `prices[cg_id][vs]` as an optional lookup
(`cg_id not in prices or vs not in prices[cg_id]` is exactly `none`). -/
def lookup2 (prices : PriceMap) (cg_id : String) (vs : String) : Option Rat :=
  match prices.lookup cg_id with
  | none => none
  | some sub => sub.lookup vs

/-- Trace of one sync pass: the PATCH requests applied before the pass
ended, and its outcome.  A failure partway leaves earlier writes applied. -/
structure SyncTrace where
  writes : List PatchRequest
  res : Except SyncError Unit
deriving DecidableEq, Repr

/-- The per-instrument loop of `sync_crypto`: for each configured
`(notion_name, cg_id)`, require the coin/currency pair in the batch
response (fatal `RuntimeError` naming `cg_id` and the currency when
absent), locate the row by title, and write the price.  `queryResults`
and `writeStatus` are the store's responses to the query and the PATCH. -/
def sync_crypto_loop (crypto_db_id : String) (db_props : List String)
    (prices : PriceMap) (queryResults : String → HttpResponse (List NotionPage))
    (now : UTCTime) (writeStatus : String → Nat) :
    List (String × String) → SyncTrace
  | [] => ⟨[], .ok ()⟩
  | (notion_name, cg_id) :: rest =>
    match lookup2 prices cg_id VS_CURRENCY with
    | none => ⟨[], .error (.missingPrice cg_id VS_CURRENCY)⟩
    | some price =>
      match notion_find_page_id_by_title crypto_db_id notion_name
          (queryResults notion_name) with
      | .error e => ⟨[], .error e⟩
      | .ok page_id =>
        let u := notion_update_price db_props page_id price now (writeStatus page_id)
        match u.res with
        | .error e => ⟨u.requestsIssued, .error e⟩
        | .ok _ =>
          let t := sync_crypto_loop crypto_db_id db_props prices queryResults
            now writeStatus rest
          ⟨u.requestsIssued ++ t.writes, t.res⟩

/-- `sync_crypto()`: resolve the crypto store's schema, fetch the batch
prices, then run the per-instrument loop over `CRYPTO`. -/
def sync_crypto (crypto_db_id : String) (dbResp : HttpResponse (List String))
    (fetchResponses : List (HttpResponse PriceMap))
    (queryResults : String → HttpResponse (List NotionPage))
    (now : UTCTime) (writeStatus : String → Nat) : SyncTrace :=
  match notion_get_database_properties dbResp with
  | .error e => ⟨[], .error e⟩
  | .ok db_props =>
    match (coingecko_get_prices (CRYPTO.map Prod.snd) VS_CURRENCY fetchResponses).res with
    | .success prices =>
      sync_crypto_loop crypto_db_id db_props prices queryResults now writeStatus CRYPTO
    | .httpError s => ⟨[], .error (.httpStatus s)⟩
    | .exhausted => ⟨[], .error .rateLimitExhausted⟩
    | .noResponse => ⟨[], .error .noResponse⟩

/-- The per-instrument loop of `sync_etfs`: fetch the ticker's quote
(fatal `RuntimeError` naming the ticker when no price is available),
locate the row, write the price. -/
def sync_etfs_loop (etf_db_id : String) (db_props : List String)
    (chartResponses : String → HttpResponse ChartData)
    (queryResults : String → HttpResponse (List NotionPage))
    (now : UTCTime) (writeStatus : String → Nat) :
    List (String × String) → SyncTrace
  | [] => ⟨[], .ok ()⟩
  | (notion_name, ticker) :: rest =>
    match yahoo_last_price (chartResponses ticker) with
    | .error s => ⟨[], .error (.httpStatus s)⟩
    | .ok none => ⟨[], .error (.noPriceForTicker ticker)⟩
    | .ok (some price) =>
      match notion_find_page_id_by_title etf_db_id notion_name
          (queryResults notion_name) with
      | .error e => ⟨[], .error e⟩
      | .ok page_id =>
        let u := notion_update_price db_props page_id price now (writeStatus page_id)
        match u.res with
        | .error e => ⟨u.requestsIssued, .error e⟩
        | .ok _ =>
          let t := sync_etfs_loop etf_db_id db_props chartResponses queryResults
            now writeStatus rest
          ⟨u.requestsIssued ++ t.writes, t.res⟩

/-- `sync_etfs()`: resolve the ETF store's schema, then run the
per-instrument loop over `ETFS`. -/
def sync_etfs (etf_db_id : String) (dbResp : HttpResponse (List String))
    (chartResponses : String → HttpResponse ChartData)
    (queryResults : String → HttpResponse (List NotionPage))
    (now : UTCTime) (writeStatus : String → Nat) : SyncTrace :=
  match notion_get_database_properties dbResp with
  | .error e => ⟨[], .error e⟩
  | .ok db_props =>
    sync_etfs_loop etf_db_id db_props chartResponses queryResults now writeStatus ETFS

end CryptoEtfSync

/-! ### crypto_sync.py

The second script duplicates the CoinGecko retry loop verbatim (only the
`User-Agent` string and the final error message differ, neither of which
affects control flow), so the shared `coingecko_get_prices` above models
both copies.  Its Notion helpers, however, reference a global
`NOTION_DATABASE_ID` that is bound nowhere in the module, so resolving it
raises a Python `NameError` at the first use. -/

namespace CryptoSync

/-- The coin table `COINS` of `crypto_sync.py`. -/
def COINS : List (String × String) :=
  [("Bitcoin", "bitcoin"), ("WLFI", "world-liberty-financial")]

/-- Every global name bound in the module scope of `crypto_sync.py` when
`main()` runs: the imports and the top-level assignments and function
definitions.  `NOTION_DATABASE_ID` is not among them. -/
def module_globals : List String :=
  ["os", "time", "requests", "datetime", "timezone",
   "NOTION_TOKEN", "CRYPTO_DB_ID", "ETF_DB_ID", "VS_CURRENCY", "COINS",
   "NOTION_HEADERS", "coingecko_get_prices", "notion_query_page_id_by_name",
   "notion_get_database_properties", "notion_update_price", "main"]

/-- Python global-name resolution inside `crypto_sync.py`: a name bound in
the module scope resolves; any other raises `NameError`. -/
def resolveGlobal (n : String) : Except SyncError String :=
  if n ∈ module_globals then .ok n else .error (.nameError n)

/-- `notion_get_database_properties()`: its URL f-string evaluates the
global `NOTION_DATABASE_ID` before any HTTP request is made; if that
resolves, the GET is issued and the body's `properties` keys returned. -/
def notion_get_database_properties (dbResp : HttpResponse (List String)) :
    Except SyncError (List String) :=
  match resolveGlobal "NOTION_DATABASE_ID" with
  | .error e => .error e
  | .ok _ =>
    if 400 ≤ dbResp.status then .error (.httpStatus dbResp.status)
    else .ok dbResp.body

/-- `notion_query_page_id_by_name(name)`: the URL f-string also evaluates
`NOTION_DATABASE_ID` first; on zero results the raised message names only
the missing title, not the store. -/
def notion_query_page_id_by_name (name : String)
    (resp : HttpResponse (List NotionPage)) : Except SyncError String :=
  match resolveGlobal "NOTION_DATABASE_ID" with
  | .error e => .error e
  | .ok _ =>
    if 400 ≤ resp.status then .error (.httpStatus resp.status)
    else
      match resp.body with
      | [] => .error (.titleNotFound name)
      | p :: _ => .ok p.id

/-- `notion_update_price(page_id, price, has_last_updated)`: this variant
performs no schema check; it always builds the payload (price number,
then the date when the flag is set) and issues the PATCH. -/
def notion_update_price (page_id : String) (price : Rat)
    (has_last_updated : Bool) (now : UTCTime) (writeStatus : Nat) : UpdateOutcome :=
  let props :=
    [(PRICE_PROP, PropValue.number price)] ++
      (if has_last_updated then
        [(LAST_UPDATED_PROP, PropValue.date (isoformatUTC now))]
      else [])
  let req : PatchRequest := ⟨page_id, props⟩
  if 400 ≤ writeStatus then ⟨[req], .error (.httpStatus writeStatus)⟩
  else ⟨[req], .ok ()⟩

/-- Trace of one run of `crypto_sync.main()`: how many price-feed fetch
calls, row-lookup queries and row-update PATCHes were issued, and the
outcome. -/
structure RunTrace where
  priceFetchCalls : Nat
  rowLookupCalls : Nat
  rowUpdateCalls : Nat
  res : Except SyncError Unit
deriving DecidableEq, Repr

/-- The per-coin loop of `main()`: `price = float(prices[cg_id][VS_CURRENCY])`
raises `KeyError` on a missing key (no membership check in this script),
then the row is located and updated. -/
def main_loop (prices : PriceMap) (has_last_updated : Bool)
    (queryResults : String → HttpResponse (List NotionPage))
    (now : UTCTime) (writeStatus : String → Nat) :
    List (String × String) → RunTrace
  | [] => ⟨0, 0, 0, .ok ()⟩
  | (notion_name, cg_id) :: rest =>
    match prices.lookup cg_id with
    | none => ⟨0, 0, 0, .error (.keyError cg_id)⟩
    | some sub =>
      match sub.lookup VS_CURRENCY with
      | none => ⟨0, 0, 0, .error (.keyError VS_CURRENCY)⟩
      | some price =>
        match notion_query_page_id_by_name notion_name (queryResults notion_name) with
        | .error e => ⟨0, 1, 0, .error e⟩
        | .ok page_id =>
          let u := notion_update_price page_id price has_last_updated now
            (writeStatus page_id)
          match u.res with
          | .error e => ⟨0, 1, 1, .error e⟩
          | .ok _ =>
            let t := main_loop prices has_last_updated queryResults now writeStatus rest
            ⟨t.priceFetchCalls, 1 + t.rowLookupCalls, 1 + t.rowUpdateCalls, t.res⟩

/-- `main()` of `crypto_sync.py`: reads the schema (which resolves the
undefined global first), computes `has_last_updated`, fetches the batch
prices, then runs the per-coin loop over `COINS`. -/
def main (dbResp : HttpResponse (List String))
    (fetchResponses : List (HttpResponse PriceMap))
    (queryResults : String → HttpResponse (List NotionPage))
    (now : UTCTime) (writeStatus : String → Nat) : RunTrace :=
  match notion_get_database_properties dbResp with
  | .error e => ⟨0, 0, 0, .error e⟩
  | .ok db_props =>
    let has_last_updated := db_props.contains LAST_UPDATED_PROP
    let fetch := coingecko_get_prices (COINS.map Prod.snd) VS_CURRENCY fetchResponses
    match fetch.res with
    | .success prices =>
      let t := main_loop prices has_last_updated queryResults now writeStatus COINS
      ⟨1 + t.priceFetchCalls, t.rowLookupCalls, t.rowUpdateCalls, t.res⟩
    | .httpError s => ⟨1, 0, 0, .error (.httpStatus s)⟩
    | .exhausted => ⟨1, 0, 0, .error .rateLimitExhausted⟩
    | .noResponse => ⟨1, 0, 0, .error .noResponse⟩

end CryptoSync

/-! ### Behaviour of the retry loop -/

/-- Running the loop against a stream of rate-limit responses followed by
any non-429 response: the loop retries through the 429s (sleeping
`2 * (attempt + 1)` at each), then either raises or succeeds on the first
non-429 response, having issued one identical request per consumed
response. -/
theorem coingecko_loop_first_non429 {α : Type} (req : CoinGeckoRequest)
    (pre : List (HttpResponse α)) (ok : HttpResponse α) (rest : List (HttpResponse α))
    (attempts : List Nat)
    (hpre : ∀ r ∈ pre, r.status = 429) (hlen : pre.length < attempts.length)
    (hok : ¬ ok.status = 429) :
    coingecko_loop req (pre ++ ok :: rest) attempts =
      ⟨if 400 ≤ ok.status then .httpError ok.status else .success ok.body,
       List.replicate (pre.length + 1) req,
       (attempts.take pre.length).map (fun a => 2 * (a + 1))⟩ := by
  induction pre generalizing attempts with
  | nil =>
    match attempts with
    | [] => simp at hlen
    | a :: as =>
      by_cases h4 : 400 ≤ ok.status <;> simp [coingecko_loop, hok, h4]
  | cons p ps ih =>
    match attempts with
    | [] => simp at hlen
    | a :: as =>
      have hp : p.status = 429 := hpre p (by simp)
      have hps : ∀ r ∈ ps, r.status = 429 := fun r hr => hpre r (by simp [hr])
      have hlen' : ps.length < as.length := by
        simpa using Nat.lt_of_succ_lt_succ (by simpa using hlen)
      simp [coingecko_loop, hp, ih as hps hlen', List.replicate_succ]

/-- Running the loop against as many rate-limit responses as there are
attempts: every attempt is consumed, sleeping after each (including the
last), and the loop falls through to the exhausted error without touching
any later response. -/
theorem coingecko_loop_all429 {α : Type} (req : CoinGeckoRequest)
    (rs rest : List (HttpResponse α)) (attempts : List Nat)
    (hall : ∀ r ∈ rs, r.status = 429) (hlen : rs.length = attempts.length) :
    coingecko_loop req (rs ++ rest) attempts =
      ⟨.exhausted, List.replicate attempts.length req,
       attempts.map (fun a => 2 * (a + 1))⟩ := by
  induction rs generalizing attempts with
  | nil =>
    match attempts with
    | [] => simp [coingecko_loop]
    | a :: as => simp at hlen
  | cons p ps ih =>
    match attempts with
    | [] => simp at hlen
    | a :: as =>
      have hp : p.status = 429 := hall p (by simp)
      have hps : ∀ r ∈ ps, r.status = 429 := fun r hr => hall r (by simp [hr])
      have hlen' : ps.length = as.length := by simpa using hlen
      simp [coingecko_loop, hp, ih as hps hlen', List.replicate_succ]

/-- Claim C1: whenever the upstream answers 429, `coingecko_get_prices`
retries the identical request, with at most 6 attempts in total; before
the retry following the attempt with index `i` it sleeps `2 * (i + 1)`
seconds, so the delays are strictly increasing (2, 4, 6, ...); a success
response within the 6 attempts has its payload returned. -/
theorem coingecko_retry_then_success
    (coin_ids : List String) (vs : String)
    (pre : List (HttpResponse PriceMap)) (ok : HttpResponse PriceMap)
    (rest : List (HttpResponse PriceMap))
    (hpre : ∀ r ∈ pre, r.status = 429) (hlen : pre.length < 6)
    (hok : ok.status < 400) :
    coingecko_get_prices coin_ids vs (pre ++ ok :: rest) =
      ⟨.success ok.body,
       List.replicate (pre.length + 1) (coingecko_request coin_ids vs),
       (List.range pre.length).map (fun i => 2 * (i + 1))⟩ ∧
    ((List.range pre.length).map (fun i => 2 * (i + 1))).Pairwise (· < ·) := by
  have hok429 : ¬ ok.status = 429 := by omega
  have h4 : ¬ 400 ≤ ok.status := by omega
  have h := coingecko_loop_first_non429 (coingecko_request coin_ids vs) pre ok rest
    (List.range 6) hpre (by simpa using hlen) hok429
  constructor
  · rw [coingecko_get_prices, h, if_neg h4, List.take_range,
      Nat.min_eq_left (by omega)]
  · exact (List.pairwise_lt_range _).map _ (fun a b hab => by omega)

/-- Witness for C1 at a concrete input: one 429 then a 200. -/
theorem coingecko_retry_then_success_witness :
    coingecko_get_prices ["bitcoin"] "aud"
        (([⟨429, []⟩] : List (HttpResponse PriceMap)) ++
          ⟨200, [("bitcoin", [("aud", 5)])]⟩ :: []) =
      ⟨.success [("bitcoin", [("aud", 5)])],
       List.replicate 2 (coingecko_request ["bitcoin"] "aud"),
       [2]⟩ := by
  have h := (coingecko_retry_then_success ["bitcoin"] "aud"
    [⟨429, []⟩] ⟨200, [("bitcoin", [("aud", 5)])]⟩ []
    (by decide) (by decide) (by decide)).1
  simpa [List.range_succ] using h

/-- Claim C2: six consecutive 429 responses exhaust the retries — the
operation fails with the distinct exhausted error, having issued exactly
6 identical requests and no 7th even when further responses are
available; any non-success status other than 429 instead fails
immediately, with no request after it. -/
theorem coingecko_failure_modes (coin_ids : List String) (vs : String) :
    (∀ (rs rest : List (HttpResponse PriceMap)),
      rs.length = 6 → (∀ r ∈ rs, r.status = 429) →
      coingecko_get_prices coin_ids vs (rs ++ rest) =
        ⟨.exhausted, List.replicate 6 (coingecko_request coin_ids vs),
         [2, 4, 6, 8, 10, 12]⟩) ∧
    (∀ (pre : List (HttpResponse PriceMap)) (bad : HttpResponse PriceMap)
        (rest : List (HttpResponse PriceMap)),
      pre.length < 6 → (∀ r ∈ pre, r.status = 429) →
      ¬ bad.status = 429 → 400 ≤ bad.status →
      coingecko_get_prices coin_ids vs (pre ++ bad :: rest) =
        ⟨.httpError bad.status,
         List.replicate (pre.length + 1) (coingecko_request coin_ids vs),
         (List.range pre.length).map (fun i => 2 * (i + 1))⟩) := by
  constructor
  · intro rs rest hlen hall
    have h := coingecko_loop_all429 (coingecko_request coin_ids vs) rs rest
      (List.range 6) hall (by simpa using hlen)
    rw [coingecko_get_prices, h]
    rfl
  · intro pre bad rest hlen hall h429 h4
    have h := coingecko_loop_first_non429 (coingecko_request coin_ids vs) pre bad rest
      (List.range 6) hall (by simpa using hlen) h429
    rw [coingecko_get_prices, h, if_pos h4, List.take_range,
      Nat.min_eq_left (by omega)]

/-- Witness for C2: six 429s with a spare 200 behind them (left unread),
and a 429 followed by a 500. -/
theorem coingecko_failure_modes_witness :
    coingecko_get_prices ["bitcoin"] "aud"
        (List.replicate 6 (⟨429, ([] : PriceMap)⟩ : HttpResponse PriceMap) ++
          [⟨200, [("bitcoin", [("aud", 5)])]⟩]) =
      ⟨.exhausted, List.replicate 6 (coingecko_request ["bitcoin"] "aud"),
       [2, 4, 6, 8, 10, 12]⟩ ∧
    coingecko_get_prices ["bitcoin"] "aud"
        (([⟨429, []⟩] : List (HttpResponse PriceMap)) ++ ⟨500, []⟩ :: []) =
      ⟨.httpError 500, List.replicate 2 (coingecko_request ["bitcoin"] "aud"),
       [2]⟩ := by
  constructor
  · exact (coingecko_failure_modes ["bitcoin"] "aud").1
      (List.replicate 6 ⟨429, []⟩) [⟨200, [("bitcoin", [("aud", 5)])]⟩]
      (by decide) (by decide)
  · have h := (coingecko_failure_modes ["bitcoin"] "aud").2
      [⟨429, []⟩] ⟨500, []⟩ [] (by decide) (by decide) (by decide) (by decide)
    simpa using h

/-- Claim C3: a successful batch response's mapping is returned exactly as
received, with no validation that each requested pair is present; the
caller (`sync_crypto`'s per-instrument loop) detects an absent
coin/currency pair and fails the run with the fatal error naming that
coin id and the currency. -/
theorem coingecko_verbatim_caller_validates :
    (∀ (coin_ids : List String) (vs : String)
        (pre : List (HttpResponse PriceMap)) (ok : HttpResponse PriceMap)
        (rest : List (HttpResponse PriceMap)),
      (∀ r ∈ pre, r.status = 429) → pre.length < 6 → ok.status < 400 →
      (coingecko_get_prices coin_ids vs (pre ++ ok :: rest)).res = .success ok.body) ∧
    (∀ (crypto_db_id : String) (db_props : List String) (prices : PriceMap)
        (queryResults : String → HttpResponse (List NotionPage))
        (now : UTCTime) (writeStatus : String → Nat)
        (notion_name cg_id : String) (rest : List (String × String)),
      CryptoEtfSync.lookup2 prices cg_id VS_CURRENCY = none →
      CryptoEtfSync.sync_crypto_loop crypto_db_id db_props prices queryResults now
          writeStatus ((notion_name, cg_id) :: rest) =
        ⟨[], .error (.missingPrice cg_id VS_CURRENCY)⟩) := by
  constructor
  · intro coin_ids vs pre ok rest hpre hlen hok
    have h := coingecko_loop_first_non429 (coingecko_request coin_ids vs) pre ok rest
      (List.range 6) hpre (by simpa using hlen) (by omega)
    rw [coingecko_get_prices, h]
    simp [show ¬ 400 ≤ ok.status by omega]
  · intro crypto_db_id db_props prices queryResults now writeStatus notion_name cg_id rest hmiss
    simp [CryptoEtfSync.sync_crypto_loop, hmiss]

/-- Witness for C3: an immediate 200 whose body is returned verbatim, and
a batch response lacking the pair for the coin `bitcoin`, on which the
caller loop fails naming `bitcoin` and `aud`. -/
theorem coingecko_verbatim_caller_validates_witness :
    (coingecko_get_prices ["bitcoin"] "aud"
        (([] : List (HttpResponse PriceMap)) ++
          ⟨200, [("bitcoin", [("aud", 5)])]⟩ :: [])).res =
      .success [("bitcoin", [("aud", 5)])] ∧
    CryptoEtfSync.sync_crypto_loop "db1" [PRICE_PROP]
        [("ethereum", [("aud", 3)])] (fun _ => ⟨200, [⟨"page1"⟩]⟩)
        ⟨2026, 1, 1, 0, 0, 0, 0⟩ (fun _ => 200)
        (("Bitcoin", "bitcoin") :: []) =
      ⟨[], .error (.missingPrice "bitcoin" VS_CURRENCY)⟩ := by
  constructor
  · exact coingecko_verbatim_caller_validates.1 ["bitcoin"] "aud" []
      ⟨200, [("bitcoin", [("aud", 5)])]⟩ [] (by decide) (by decide) (by decide)
  · exact coingecko_verbatim_caller_validates.2 "db1" [PRICE_PROP]
      [("ethereum", [("aud", 3)])] (fun _ => ⟨200, [⟨"page1"⟩]⟩)
      ⟨2026, 1, 1, 0, 0, 0, 0⟩ (fun _ => 200) "Bitcoin" "bitcoin" []
      (by decide)

/-- Claim C4: a chart response whose error field is non-null or whose
result set is missing or empty makes `yahoo_last_price` yield no price
(`none`) without raising; the caller (`sync_etfs`'s loop) is where a
missing price becomes fatal. -/
theorem yahoo_no_price_on_error_or_empty :
    (∀ (resp : HttpResponse ChartData), resp.status < 400 →
      (resp.body.error.isSome = true ∨ resp.body.result = none ∨
        resp.body.result = some []) →
      yahoo_last_price resp = .ok none) ∧
    (∀ (etf_db_id : String) (db_props : List String)
        (chartResponses : String → HttpResponse ChartData)
        (queryResults : String → HttpResponse (List NotionPage))
        (now : UTCTime) (writeStatus : String → Nat)
        (notion_name ticker : String) (rest : List (String × String)),
      yahoo_last_price (chartResponses ticker) = .ok none →
      CryptoEtfSync.sync_etfs_loop etf_db_id db_props chartResponses queryResults
          now writeStatus ((notion_name, ticker) :: rest) =
        ⟨[], .error (.noPriceForTicker ticker)⟩) := by
  constructor
  · intro resp hstatus h
    have h4 : ¬ 400 ≤ resp.status := by omega
    cases he : resp.body.error with
    | some e => simp [yahoo_last_price, h4, he]
    | none =>
      rcases h with h | h | h
      · rw [he] at h; simp at h
      · simp [yahoo_last_price, h4, he, h]
      · simp [yahoo_last_price, h4, he, h]
  · intro etf_db_id db_props chartResponses queryResults now writeStatus
      notion_name ticker rest hnone
    simp [CryptoEtfSync.sync_etfs_loop, hnone]

/-- Witness for C4: an error-bearing chart response yields no price, and
the caller loop turns that into the fatal no-price error for the ticker. -/
theorem yahoo_no_price_on_error_or_empty_witness :
    yahoo_last_price ⟨200, ⟨some [⟨some ⟨some 42, some 41⟩⟩], some "Not Found"⟩⟩ =
      .ok none ∧
    CryptoEtfSync.sync_etfs_loop "db2" [PRICE_PROP]
        (fun _ => ⟨200, ⟨none, some "Not Found"⟩⟩) (fun _ => ⟨200, [⟨"page9"⟩]⟩)
        ⟨2026, 1, 1, 0, 0, 0, 0⟩ (fun _ => 200) (("IVV", "IVV.AX") :: []) =
      ⟨[], .error (.noPriceForTicker "IVV.AX")⟩ := by
  constructor
  · exact yahoo_no_price_on_error_or_empty.1
      ⟨200, ⟨some [⟨some ⟨some 42, some 41⟩⟩], some "Not Found"⟩⟩
      (by decide) (by decide)
  · exact yahoo_no_price_on_error_or_empty.2 "db2" [PRICE_PROP]
      (fun _ => ⟨200, ⟨none, some "Not Found"⟩⟩) (fun _ => ⟨200, [⟨"page9"⟩]⟩)
      ⟨2026, 1, 1, 0, 0, 0, 0⟩ (fun _ => 200) "IVV" "IVV.AX" [] (by decide)

/-- Counterexample to claim C5 as stated: a quote response whose metadata
contains both a live last-traded price (here 0) and a previous close
(here 5).  Python `or` treats the float 0.0 as falsy, so the code returns
the previous close 5, not the live price 0. -/
theorem yahoo_live_price_not_always_preferred :
    yahoo_last_price ⟨200, ⟨some [⟨some ⟨some 0, some 5⟩⟩], none⟩⟩ =
      .ok (some 5) ∧
    ¬ yahoo_last_price ⟨200, ⟨some [⟨some ⟨some 0, some 5⟩⟩], none⟩⟩ =
      .ok (some 0) := by decide

/-- Claim C5 (amended): the live last-traded price is returned whenever it
is present and nonzero (Python truthiness); when it is absent or zero,
the previous close field is returned instead. -/
theorem yahoo_prefers_truthy_live_price
    (resp : HttpResponse ChartData) (hstatus : resp.status < 400)
    (item : ChartItem) (restItems : List ChartItem) (m : ChartMeta)
    (herr : resp.body.error = none)
    (hres : resp.body.result = some (item :: restItems))
    (hmeta : item.meta = some m) :
    (∀ p : Rat, m.regularMarketPrice = some p → ¬ p = 0 →
      yahoo_last_price resp = .ok (some p)) ∧
    ((m.regularMarketPrice = none ∨ m.regularMarketPrice = some 0) →
      yahoo_last_price resp = .ok m.previousClose) := by
  have h4 : ¬ 400 ≤ resp.status := by omega
  constructor
  · intro p hp hp0
    simp [yahoo_last_price, h4, herr, hres, hmeta, pyTruthyOr, hp, hp0]
  · rintro (h | h) <;>
      simp [yahoo_last_price, h4, herr, hres, hmeta, pyTruthyOr, h]

/-- Witness for the amended C5: a nonzero live price 42 wins over a
previous close 41; a zero live price falls back to the previous close. -/
theorem yahoo_prefers_truthy_live_price_witness :
    yahoo_last_price ⟨200, ⟨some [⟨some ⟨some 42, some 41⟩⟩], none⟩⟩ =
      .ok (some 42) ∧
    yahoo_last_price ⟨200, ⟨some [⟨some ⟨some 0, some 41⟩⟩], none⟩⟩ =
      .ok (some 41) := by
  constructor
  · exact (yahoo_prefers_truthy_live_price
      ⟨200, ⟨some [⟨some ⟨some 42, some 41⟩⟩], none⟩⟩ (by decide)
      ⟨some ⟨some 42, some 41⟩⟩ [] ⟨some 42, some 41⟩
      (by decide) (by decide) (by decide)).1 42 (by decide) (by decide)
  · exact (yahoo_prefers_truthy_live_price
      ⟨200, ⟨some [⟨some ⟨some 0, some 41⟩⟩], none⟩⟩ (by decide)
      ⟨some ⟨some 0, some 41⟩⟩ [] ⟨some 0, some 41⟩
      (by decide) (by decide) (by decide)).2 (Or.inr (by decide))

/-- Claim C6: a locator query with zero matching rows fails with the
record-not-found error naming the database and the missing title; with
one or more matches it returns the id of the first result. -/
theorem notion_locator_zero_or_first
    (database_id title_value : String) (resp : HttpResponse (List NotionPage))
    (hstatus : resp.status < 400) :
    (resp.body = [] →
      CryptoEtfSync.notion_find_page_id_by_title database_id title_value resp =
        .error (.pageNotFound database_id title_value)) ∧
    (∀ p rest, resp.body = p :: rest →
      CryptoEtfSync.notion_find_page_id_by_title database_id title_value resp =
        .ok p.id) := by
  have h4 : ¬ 400 ≤ resp.status := by omega
  constructor
  · intro h
    simp [CryptoEtfSync.notion_find_page_id_by_title, h4, h]
  · intro p rest h
    simp [CryptoEtfSync.notion_find_page_id_by_title, h4, h]

/-- Witness for C6: an empty result set for the title `Bitcoin` in store
`db1`, and a two-row result set whose first id is returned. -/
theorem notion_locator_zero_or_first_witness :
    CryptoEtfSync.notion_find_page_id_by_title "db1" "Bitcoin" ⟨200, []⟩ =
      .error (.pageNotFound "db1" "Bitcoin") ∧
    CryptoEtfSync.notion_find_page_id_by_title "db1" "Bitcoin"
        ⟨200, [⟨"pageA"⟩, ⟨"pageB"⟩]⟩ = .ok "pageA" := by
  constructor
  · exact (notion_locator_zero_or_first "db1" "Bitcoin" ⟨200, []⟩
      (by decide)).1 (by decide)
  · exact (notion_locator_zero_or_first "db1" "Bitcoin"
      ⟨200, [⟨"pageA"⟩, ⟨"pageB"⟩]⟩ (by decide)).2 ⟨"pageA"⟩ [⟨"pageB"⟩] (by decide)

/-- When the price column is present, the updater issues exactly one
PATCH, whose payload is the price number followed by the timestamp date
exactly when the schema has the timestamp column. -/
theorem notion_update_price_requests
    (database_props : List String) (page_id : String) (price : Rat)
    (now : UTCTime) (writeStatus : Nat) (h : PRICE_PROP ∈ database_props) :
    (CryptoEtfSync.notion_update_price database_props page_id price now
        writeStatus).requestsIssued =
      [⟨page_id, [(PRICE_PROP, PropValue.number price)] ++
        (if LAST_UPDATED_PROP ∈ database_props then
          [(LAST_UPDATED_PROP, PropValue.date (isoformatUTC now))]
        else [])⟩] := by
  by_cases hw : 400 ≤ writeStatus <;>
    simp [CryptoEtfSync.notion_update_price, h, hw]

/-- The `crypto_sync.py` updater issues exactly one PATCH with the price
number followed by the timestamp date exactly when the flag is set. -/
theorem crypto_sync_update_price_requests
    (page_id : String) (price : Rat) (has_last_updated : Bool)
    (now : UTCTime) (writeStatus : Nat) :
    (CryptoSync.notion_update_price page_id price has_last_updated now
        writeStatus).requestsIssued =
      [⟨page_id, [(PRICE_PROP, PropValue.number price)] ++
        (if has_last_updated then
          [(LAST_UPDATED_PROP, PropValue.date (isoformatUTC now))]
        else [])⟩] := by
  by_cases hw : 400 ≤ writeStatus <;>
    simp [CryptoSync.notion_update_price, hw]

/-- Claim C7: invoked with a store schema lacking the required price
column, the updater raises the schema error before issuing any write —
its trace of PATCH requests is empty. -/
theorem notion_update_fails_fast_without_price_column
    (database_props : List String) (page_id : String) (price : Rat)
    (now : UTCTime) (writeStatus : Nat)
    (h : PRICE_PROP ∉ database_props) :
    CryptoEtfSync.notion_update_price database_props page_id price now
        writeStatus =
      ⟨[], .error (.schemaMissingColumn PRICE_PROP)⟩ := by
  simp [CryptoEtfSync.notion_update_price, h]

/-- Witness for C7: a schema with only the title column. -/
theorem notion_update_fails_fast_without_price_column_witness :
    CryptoEtfSync.notion_update_price [TITLE_PROP] "page1" 5
        ⟨2026, 1, 1, 0, 0, 0, 0⟩ 200 =
      ⟨[], .error (.schemaMissingColumn PRICE_PROP)⟩ :=
  notion_update_fails_fast_without_price_column [TITLE_PROP] "page1" 5
    ⟨2026, 1, 1, 0, 0, 0, 0⟩ 200 (by decide)

/-- Claim C8: every write issued by either updater carries the numeric
price column, and carries the UTC ISO-8601 timestamp under the
update-timestamp column exactly when the schema defines that column (for
`crypto_sync.py`, via the flag its `main` computes from the schema); when
the schema lacks it the payload's keys are the price column alone.  The
timestamp string always ends in the UTC offset `+00:00`. -/
theorem notion_update_timestamp_iff_schema
    (database_props db_props2 : List String) (page_id : String) (price : Rat)
    (now : UTCTime) (writeStatus : Nat)
    (h : PRICE_PROP ∈ database_props) :
    (∃ req : PatchRequest,
      (CryptoEtfSync.notion_update_price database_props page_id price now
        writeStatus).requestsIssued = [req] ∧
      req.properties.lookup PRICE_PROP = some (.number price) ∧
      (req.properties.lookup LAST_UPDATED_PROP =
        if LAST_UPDATED_PROP ∈ database_props then
          some (.date (isoformatUTC now))
        else none) ∧
      (LAST_UPDATED_PROP ∉ database_props →
        req.properties.map Prod.fst = [PRICE_PROP])) ∧
    (∃ req2 : PatchRequest,
      (CryptoSync.notion_update_price page_id price
        (db_props2.contains LAST_UPDATED_PROP) now writeStatus).requestsIssued =
          [req2] ∧
      req2.properties.lookup PRICE_PROP = some (.number price) ∧
      (req2.properties.lookup LAST_UPDATED_PROP =
        if LAST_UPDATED_PROP ∈ db_props2 then
          some (.date (isoformatUTC now))
        else none) ∧
      (LAST_UPDATED_PROP ∉ db_props2 →
        req2.properties.map Prod.fst = [PRICE_PROP])) ∧
    (∃ s, isoformatUTC now = s ++ "+00:00") := by
  refine ⟨⟨_, notion_update_price_requests database_props page_id price now
    writeStatus h, ?_, ?_, ?_⟩,
    ⟨_, crypto_sync_update_price_requests page_id price
      (db_props2.contains LAST_UPDATED_PROP) now writeStatus, ?_, ?_, ?_⟩,
    ⟨isoCore now, rfl⟩⟩
  · by_cases hl : LAST_UPDATED_PROP ∈ database_props <;>
      simp [hl, List.lookup, PRICE_PROP, LAST_UPDATED_PROP]
  · by_cases hl : ("Last Updated" : String) ∈ database_props <;>
      simp [hl, List.lookup, PRICE_PROP, LAST_UPDATED_PROP]
  · intro hl
    simp [hl]
  · by_cases hl : LAST_UPDATED_PROP ∈ db_props2 <;>
      simp [hl, List.lookup, PRICE_PROP, LAST_UPDATED_PROP]
  · by_cases hl : ("Last Updated" : String) ∈ db_props2 <;>
      simp [hl, List.lookup, PRICE_PROP, LAST_UPDATED_PROP]
  · intro hl
    simp [hl]

/-- Witness for C8: a schema with both columns (timestamp included) and a
schema with only the price column (timestamp key absent). -/
theorem notion_update_timestamp_iff_schema_witness :
    (∃ req : PatchRequest,
      (CryptoEtfSync.notion_update_price [PRICE_PROP, LAST_UPDATED_PROP]
        "page1" 5 ⟨2026, 1, 1, 0, 0, 0, 0⟩ 200).requestsIssued = [req] ∧
      req.properties.lookup PRICE_PROP = some (.number 5) ∧
      (req.properties.lookup LAST_UPDATED_PROP =
        if LAST_UPDATED_PROP ∈ [PRICE_PROP, LAST_UPDATED_PROP] then
          some (.date (isoformatUTC ⟨2026, 1, 1, 0, 0, 0, 0⟩))
        else none) ∧
      (LAST_UPDATED_PROP ∉ [PRICE_PROP, LAST_UPDATED_PROP] →
        req.properties.map Prod.fst = [PRICE_PROP])) ∧
    (∃ req2 : PatchRequest,
      (CryptoSync.notion_update_price "page1" 5
        (List.contains [PRICE_PROP] LAST_UPDATED_PROP)
        ⟨2026, 1, 1, 0, 0, 0, 0⟩ 200).requestsIssued = [req2] ∧
      req2.properties.lookup PRICE_PROP = some (.number 5) ∧
      (req2.properties.lookup LAST_UPDATED_PROP =
        if LAST_UPDATED_PROP ∈ [PRICE_PROP] then
          some (.date (isoformatUTC ⟨2026, 1, 1, 0, 0, 0, 0⟩))
        else none) ∧
      (LAST_UPDATED_PROP ∉ [PRICE_PROP] →
        req2.properties.map Prod.fst = [PRICE_PROP])) ∧
    (∃ s, isoformatUTC ⟨2026, 1, 1, 0, 0, 0, 0⟩ = s ++ "+00:00") :=
  notion_update_timestamp_iff_schema [PRICE_PROP, LAST_UPDATED_PROP]
    [PRICE_PROP] "page1" 5 ⟨2026, 1, 1, 0, 0, 0, 0⟩ 200 (by decide)

/-- Claim C10 (frame effect): the properties object of every PATCH issued
by either updater mentions only the price column and — when the schema
(respectively the flag) provides it — the update-timestamp column; no
other field of the target row appears in any write. -/
theorem notion_update_frame
    (database_props : List String) (page_id : String) (price : Rat)
    (now : UTCTime) (writeStatus : Nat) :
    (∀ req ∈ (CryptoEtfSync.notion_update_price database_props page_id price
        now writeStatus).requestsIssued,
      ∀ k ∈ req.properties.map Prod.fst,
        k = PRICE_PROP ∨
          (k = LAST_UPDATED_PROP ∧ LAST_UPDATED_PROP ∈ database_props)) ∧
    (∀ (has_last_updated : Bool),
      ∀ req ∈ (CryptoSync.notion_update_price page_id price has_last_updated
          now writeStatus).requestsIssued,
      ∀ k ∈ req.properties.map Prod.fst,
        k = PRICE_PROP ∨
          (k = LAST_UPDATED_PROP ∧ has_last_updated = true)) := by
  constructor
  · intro req hreq k hk
    by_cases hp : PRICE_PROP ∈ database_props
    · rw [notion_update_price_requests database_props page_id price now
        writeStatus hp] at hreq
      simp only [List.mem_singleton] at hreq
      subst hreq
      by_cases hl : LAST_UPDATED_PROP ∈ database_props
      · simp [hl] at hk
        rcases hk with rfl | rfl
        · exact Or.inl rfl
        · exact Or.inr ⟨rfl, hl⟩
      · simp [hl] at hk
        exact Or.inl hk
    · rw [notion_update_fails_fast_without_price_column database_props page_id
        price now writeStatus hp] at hreq
      simp at hreq
  · intro has_last_updated req hreq k hk
    rw [crypto_sync_update_price_requests page_id price has_last_updated now
      writeStatus] at hreq
    simp only [List.mem_singleton] at hreq
    subst hreq
    cases has_last_updated with
    | true =>
      simp at hk
      rcases hk with rfl | rfl
      · exact Or.inl rfl
      · exact Or.inr ⟨rfl, rfl⟩
    | false =>
      simp at hk
      exact Or.inl hk

/-- Witness for C10 at concrete inputs covering both updaters: the key
`Current Price` of the one issued PATCH satisfies the frame condition. -/
theorem notion_update_frame_witness :
    (("Current Price" : String) = PRICE_PROP ∨
      (("Current Price" : String) = LAST_UPDATED_PROP ∧
        LAST_UPDATED_PROP ∈ [PRICE_PROP])) ∧
    (("Current Price" : String) = PRICE_PROP ∨
      (("Current Price" : String) = LAST_UPDATED_PROP ∧ false = true)) :=
  ⟨(notion_update_frame [PRICE_PROP] "page1" 5
      ⟨2026, 1, 1, 0, 0, 0, 0⟩ 200).1
      ⟨"page1", [(PRICE_PROP, .number 5)]⟩ (by decide) "Current Price" (by decide),
   (notion_update_frame [PRICE_PROP] "page1" 5
      ⟨2026, 1, 1, 0, 0, 0, 0⟩ 200).2 false
      ⟨"page1", [(PRICE_PROP, .number 5)]⟩ (by decide) "Current Price" (by decide)⟩

/-- Claim C9: `crypto_sync.py` binds no global `NOTION_DATABASE_ID`, so
every run of its `main` fails with the name-resolution error while
reading the schema, before any price fetch, row lookup, or row update is
issued: all three counters of the run trace are zero. -/
theorem crypto_sync_main_name_error
    (dbResp : HttpResponse (List String))
    (fetchResponses : List (HttpResponse PriceMap))
    (queryResults : String → HttpResponse (List NotionPage))
    (now : UTCTime) (writeStatus : String → Nat) :
    CryptoSync.main dbResp fetchResponses queryResults now writeStatus =
      ⟨0, 0, 0, .error (.nameError "NOTION_DATABASE_ID")⟩ := by
  have hres : CryptoSync.resolveGlobal "NOTION_DATABASE_ID" =
      .error (.nameError "NOTION_DATABASE_ID") := by decide
  simp [CryptoSync.main, CryptoSync.notion_get_database_properties, hres]

end NotionSync

